import Mathlib

/-!
Verification development for the EAV attribute/value subsystem
(`eav/models/attribute.py`): the typed-attribute definition model, its
per-datatype validation dispatch, the enumerated-choice constraint, and the
value upsert/delete protocol `Attribute.save_value`.

The Django ORM store is modelled as an explicit list of `Value` rows; each
persisting operation (create / save / delete) is one step on that list.
Machine timestamps (`auto_now`) are modelled by an explicit clock argument
passed to every call.
-/

/-- A Python runtime value as it reaches `save_value` / `validate_value`.
`none` is Python `None`; `enumRef` is an `EnumValue` model instance carrying
its label; `obj` is a host-record reference (content-type id and pk);
`list` is a sequence payload (element type fixed to strings, which is all
the development needs). Floats are modelled as rationals so that Python
numeric equality (`0 == 0.0 == False`) is exact. -/
inductive PyValue where
  | none
  | bool (b : Bool)
  | int (n : Int)
  | float (q : Rat)
  | str (s : String)
  | date (d : Int)
  | list (xs : List String)
  | enumRef (label : String)
  | obj (ct : Nat) (pk : Int)
deriving DecidableEq, Repr

/-- Numeric view of a Python value: Python treats `bool` as an integer and
compares `int` and `float` numerically. -/
def PyValue.asNum? : PyValue → Option Rat
  | .bool b => some (if b then 1 else 0)
  | .int n => some (n : Rat)
  | .float q => some q
  | _ => Option.none

/-- Python `==` on the modelled values: numeric kinds compare by value,
all other kinds compare structurally within the same kind and are unequal
across kinds. -/
def pyEq (a b : PyValue) : Bool :=
  match a.asNum?, b.asNum? with
  | some x, some y => decide (x = y)
  | _, _ =>
    match a, b with
    | .none, .none => true
    | .str s, .str t => decide (s = t)
    | .date d, .date e => decide (d = e)
    | .list xs, .list ys => decide (xs = ys)
    | .enumRef l, .enumRef m => decide (l = m)
    | .obj c p, .obj c2 p2 => decide (c = c2) && decide (p = p2)
    | _, _ => false

/-- The empty sentinel test used twice inside `save_value`:
`value is None or value == ''`. -/
def isEmptyValue (v : PyValue) : Bool :=
  (match v with | PyValue.none => true | _ => false) || pyEq v (PyValue.str "")

theorem pyEq_refl (v : PyValue) : pyEq v v = true := by
  cases v <;> simp [pyEq, PyValue.asNum?]

theorem pyEq_none_iff (v : PyValue) : pyEq v PyValue.none = true ↔ v = PyValue.none := by
  cases v <;> simp [pyEq, PyValue.asNum?]

theorem isEmptyValue_iff (v : PyValue) :
    isEmptyValue v = true ↔ v = PyValue.none ∨ v = PyValue.str "" := by
  cases v <;> simp [isEmptyValue, pyEq, PyValue.asNum?]

/-- A stored enum choice label (`EnumValue` model: a single scalar label). -/
structure EnumValue where
  value : String
deriving DecidableEq, Repr

/-- A named set of allowed choice labels (`EnumGroup` model with its
`values` many-to-many set). -/
structure EnumGroup where
  name : String
  values : List EnumValue
deriving DecidableEq, Repr

/-- The `Attribute` model: the fields the verified operations read.
`id` is the primary key (Django compares model instances by pk);
`enum_group` is the optional choice-group reference. -/
structure Attribute where
  id : Nat
  name : String
  slug : String
  datatype : String
  required : Bool := false
  enum_group : Option EnumGroup := Option.none
  description : String := ""
deriving DecidableEq, Repr

def Attribute.TYPE_TEXT : String := "text"
def Attribute.TYPE_FLOAT : String := "float"
def Attribute.TYPE_INT : String := "int"
def Attribute.TYPE_DATE : String := "date"
def Attribute.TYPE_BOOLEAN : String := "bool"
def Attribute.TYPE_OBJECT : String := "object"
def Attribute.TYPE_ENUM : String := "enum"
def Attribute.TYPE_JSON : String := "json"
def Attribute.TYPE_CSV : String := "csv"

/-- The primary key of a host entity. The source resolves the matching
field name per key shape (`get_entity_pk_type`): integer-keyed and
text/uuid-keyed hosts use distinct `Value` identity columns, so the key
kind is part of the identity. -/
inductive EntityPk where
  | intPk (n : Int)
  | strPk (s : String)
deriving DecidableEq, Repr

/-- An opaque host record, as visible to the EAV layer: its content-type
tag (`ContentType.objects.get_for_model`) and its primary key. -/
structure Entity where
  ct : Nat
  pk : EntityPk
deriving DecidableEq, Repr

/-- The composite identity of a `Value` row: the `entity_filter` dict built
by `save_value` (`attribute`, `entity_ct`, and the pk field chosen by
`get_entity_pk_type`). -/
structure Ident where
  attrId : Nat
  ct : Nat
  pk : EntityPk
deriving DecidableEq, Repr

/-- A persisted `Value` row. `payload` models the single populated
type-appropriate slot of the polymorphic `value` property (modelled from
the spec: `value.py` is not among the provided sources; per the data model
a row has one nullable slot per datatype, exactly one populated, selected
by the owning attribute datatype — `PyValue.none` is the all-slots-null
state of a freshly created row). `modified` is the `auto_now` timestamp. -/
structure ValueRow where
  ident : Ident
  payload : PyValue
  modified : Nat
deriving DecidableEq, Repr

/-- The `Value` table: a list of persisted rows. -/
abbrev Store := List ValueRow

/-- The rows matching a composite identity (`value_set.get(**entity_filter)`
inspects exactly these). -/
def findValues (s : Store) (i : Ident) : List ValueRow :=
  List.filter (fun r => decide (r.ident = i)) s

/-- Number of rows with the given identity. -/
def countValues (s : Store) (i : Ident) : Nat :=
  (findValues s i).length

/-- `value_obj.delete()`: remove the (unique) row with this identity. -/
def deleteValue (s : Store) (i : Ident) : Store :=
  List.filter (fun r => !decide (r.ident = i)) s

/-- `value_obj.value = v; value_obj.save()`: set the payload slot of the row
with this identity and persist, refreshing the `auto_now` timestamp. -/
def updateValue (s : Store) (i : Ident) (v : PyValue) (t : Nat) : Store :=
  List.map (fun r => if r.ident = i then { r with payload := v, modified := t } else r) s

/-- `Value.objects.create(**entity_filter)`: insert a fresh row carrying
only the identity; every payload slot is still null. -/
def createValue (s : Store) (i : Ident) (t : Nat) : Store :=
  s ++ [⟨i, PyValue.none, t⟩]

/-- The identity `save_value` files the row under. -/
def Attribute.ident (a : Attribute) (e : Entity) : Ident :=
  ⟨a.id, e.ct, e.pk⟩

/-- The persisted states produced by one `Attribute.save_value(entity, v)`
call, in program order, one entry per store write (create / save / delete).
`Option.none` models the `MultipleObjectsReturned` exception escaping from
`value_set.get` when several rows share the identity. Branches follow the
source: on `DoesNotExist` an empty value returns without writing, otherwise
a bare row is created; then an empty value deletes the found row; otherwise
the payload is written only when it differs (Python `!=`) from the stored
one. -/
def Attribute.save_value_steps (a : Attribute) (e : Entity) (v : PyValue) (t : Nat)
    (s : Store) : Option (List Store) :=
  match findValues s (a.ident e) with
  | [] =>
    if isEmptyValue v then some []
    else
      if pyEq v PyValue.none then some [createValue s (a.ident e) t]
      else
        some [createValue s (a.ident e) t,
          updateValue (createValue s (a.ident e) t) (a.ident e) v t]
  | [r] =>
    if isEmptyValue v then some [deleteValue s (a.ident e)]
    else if pyEq v r.payload then some []
    else some [updateValue s (a.ident e) v t]
  | _ => Option.none

/-- The store after one `Attribute.save_value` call: the last persisted
state of the call (the starting store when the call writes nothing). -/
def Attribute.save_value (a : Attribute) (e : Entity) (v : PyValue) (t : Nat)
    (s : Store) : Option Store :=
  (a.save_value_steps e v t s).map (fun l => l.getLastD s)

/-- The Python exceptions the modelled operations can raise. -/
inductive PyError where
  | validationError (msg : String)
  | attributeError
  | keyError (k : String)
deriving DecidableEq, Repr

/-- Modelled from the spec: `eav/validators.py` is not among the provided
sources. Per the validator contract, each datatype has one pure validator
failing with a `ValidationError` when the raw value has the wrong
shape/type; the text validator accepts string input. -/
def validate_text : PyValue → Except PyError Unit
  | PyValue.str _ => Except.ok ()
  | _ => Except.error (PyError.validationError "Must be str")

/-- Modelled from the spec: the float validator accepts numeric input. -/
def validate_float (v : PyValue) : Except PyError Unit :=
  match v.asNum? with
  | some _ => Except.ok ()
  | Option.none => Except.error (PyError.validationError "Must be a float")

/-- Modelled from the spec: the int validator fails on non-integral
input. -/
def validate_int : PyValue → Except PyError Unit
  | PyValue.int _ => Except.ok ()
  | PyValue.bool _ => Except.ok ()
  | _ => Except.error (PyError.validationError "Must be an integer")

/-- Modelled from the spec: the date validator fails on unparsable date
representations. -/
def validate_date : PyValue → Except PyError Unit
  | PyValue.date _ => Except.ok ()
  | _ => Except.error (PyError.validationError "Must be a date or datetime")

/-- Modelled from the spec: the bool validator accepts boolean input. -/
def validate_bool : PyValue → Except PyError Unit
  | PyValue.bool _ => Except.ok ()
  | _ => Except.error (PyError.validationError "Must be a boolean")

/-- Modelled from the spec: the object validator fails unless the value is
a host-record reference with a resolvable type and primary key. -/
def validate_object : PyValue → Except PyError Unit
  | PyValue.obj _ _ => Except.ok ()
  | _ => Except.error (PyError.validationError "Must be a django model object instance")

/-- Modelled from the spec: the enum validator accepts a choice given
either as a text label or as an `EnumValue` reference (the membership check
itself lives in `validate_value`, which also accepts both shapes). -/
def validate_enum : PyValue → Except PyError Unit
  | PyValue.str _ => Except.ok ()
  | PyValue.enumRef _ => Except.ok ()
  | _ => Except.error (PyError.validationError "Must be an EnumValue or a text choice")

/-- Modelled from the spec: the json validator fails when the value does
not round-trip through JSON; JSON-representable kinds pass. -/
def validate_json : PyValue → Except PyError Unit
  | PyValue.obj _ _ => Except.error (PyError.validationError "Must be JSON serializable")
  | PyValue.enumRef _ => Except.error (PyError.validationError "Must be JSON serializable")
  | PyValue.date _ => Except.error (PyError.validationError "Must be JSON serializable")
  | _ => Except.ok ()

/-- Modelled from the spec: the csv validator fails when the value is not a
comma-joinable sequence of primitives. -/
def validate_csv : PyValue → Except PyError Unit
  | PyValue.str _ => Except.ok ()
  | PyValue.list _ => Except.ok ()
  | _ => Except.error (PyError.validationError "Must be a comma-separated value or list")

/-- The `DATATYPE_VALIDATORS` dict of `Attribute.get_validators`, as an
association list keyed by the datatype tag. -/
def DATATYPE_VALIDATORS : List (String × (PyValue → Except PyError Unit)) :=
  [("text", validate_text),
   ("float", validate_float),
   ("int", validate_int),
   ("date", validate_date),
   ("bool", validate_bool),
   ("object", validate_object),
   ("enum", validate_enum),
   ("json", validate_json),
   ("csv", validate_csv)]

/-- `Attribute.get_validators`: the validator for `self.datatype`, as a
one-element list; `Option.none` models the `KeyError` a dict lookup raises
on a tag outside the table. -/
def Attribute.get_validators (a : Attribute) :
    Option (List (PyValue → Except PyError Unit)) :=
  (List.lookup a.datatype DATATYPE_VALIDATORS).map (fun f => [f])

/-- The `DATATYPE_CHOICES` display names. -/
def DATATYPE_CHOICES : List (String × String) :=
  [("text", "Text"),
   ("date", "Date"),
   ("float", "Float"),
   ("int", "Integer"),
   ("bool", "True / False"),
   ("object", "Django Object"),
   ("enum", "Multiple Choice"),
   ("json", "JSON Object"),
   ("csv", "Comma-Separated-Value")]

/-- Django `get_datatype_display`: the display name for the stored tag. -/
def Attribute.get_datatype_display (a : Attribute) : String :=
  (List.lookup a.datatype DATATYPE_CHOICES).getD a.datatype

/-- `Attribute.__str__`: `f'{self.name} ({self.get_datatype_display()})'`. -/
def Attribute.strRepr (a : Attribute) : String :=
  a.name ++ " (" ++ a.get_datatype_display ++ ")"

/-- Python `str()` of a modelled value, used when interpolating `%(val)s`
into an error message (an `EnumValue` instance displays as its label). -/
def pyStr : PyValue → String
  | PyValue.none => "None"
  | PyValue.bool b => if b then "True" else "False"
  | PyValue.int n => toString n
  | PyValue.float q => toString q
  | PyValue.str s => s
  | PyValue.date d => toString d
  | PyValue.list xs => toString xs
  | PyValue.enumRef l => l
  | PyValue.obj c p => "obj " ++ toString c ++ " " ++ toString p

/-- Run the validators of `get_validators` in order, propagating the first
failure (`for validator in self.get_validators(): validator(value)`). -/
def runValidatorList : List (PyValue → Except PyError Unit) → PyValue →
    Except PyError Unit
  | [], _ => Except.ok ()
  | f :: fs, v =>
    match f v with
    | Except.ok () => runValidatorList fs v
    | Except.error e => Except.error e

/-- The label the enum branch of `validate_value` compares against the
group members: an `EnumValue` reference is replaced by its label first. -/
def enumLabel (v : PyValue) : PyValue :=
  match v with
  | PyValue.enumRef l => PyValue.str l
  | _ => v

/-- The ORM membership test `self.enum_group.values.filter(value=value)`:
a string matches rows whose label column equals it; a non-string filter
value matches no row of the label column. -/
def enumMember (g : EnumGroup) (v : PyValue) : Bool :=
  match v with
  | PyValue.str s => g.values.any (fun ev => decide (ev.value = s))
  | _ => false

/-- `Attribute.validate_value`: run the datatype validator, then, for enum
attributes only, require the value (or its label when given as an
`EnumValue` reference) to be a member of `enum_group`; a missing
`enum_group` surfaces as the `AttributeError` Python raises on
`None.values`. -/
def Attribute.validate_value (a : Attribute) (v : PyValue) : Except PyError Unit :=
  match a.get_validators with
  | Option.none => Except.error (PyError.keyError a.datatype)
  | some fs =>
    match runValidatorList fs v with
    | Except.error e => Except.error e
    | Except.ok () =>
      if a.datatype = Attribute.TYPE_ENUM then
        let v1 := enumLabel v
        match a.enum_group with
        | Option.none => Except.error PyError.attributeError
        | some g =>
          if enumMember g v1 then Except.ok ()
          else Except.error (PyError.validationError
            (pyStr v1 ++ " is not a valid choice for " ++ a.strRepr))
      else Except.ok ()

/-- `Attribute.clean`: invariant I1. An enum attribute must carry a choice
group; a non-enum attribute must not. -/
def Attribute.clean (a : Attribute) : Except PyError Unit :=
  if a.datatype = Attribute.TYPE_ENUM ∧ a.enum_group = Option.none then
    Except.error (PyError.validationError
      "You must set the choice group for multiple choice attributes")
  else if a.datatype ≠ Attribute.TYPE_ENUM ∧ a.enum_group ≠ Option.none then
    Except.error (PyError.validationError
      "You can only assign a choice group to multiple choice attributes")
  else Except.ok ()

/-- Cut a character stream into lowercased alphanumeric words, dropping
separator characters; `acc` holds the current word reversed. -/
def slugWords : List Char → List Char → List (List Char)
  | [], acc => if acc.isEmpty then [] else [acc.reverse]
  | c :: cs, acc =>
    if c.isAlphanum then slugWords cs (c.toLower :: acc)
    else if acc.isEmpty then slugWords cs [] else acc.reverse :: slugWords cs []

/-- Join words with single hyphens. -/
def joinDash : List (List Char) → List Char
  | [] => []
  | [w] => w
  | w :: ws => w ++ '-' :: joinDash ws

/-- Modelled from the spec: `eav/logic/slug.py` is not among the provided
sources. `generate_slug` is a deterministic slugify of the name: lowercase
the alphanumeric runs of the name and join them with hyphens. -/
def generate_slug (name : String) : String :=
  ⟨joinDash (slugWords name.data [])⟩

/-- `Attribute.save` against the attribute table: fill a blank slug from
the name, then `full_clean` (the model invariant check of `clean` followed
by the store-enforced slug uniqueness validation; Django field validation
is elided), then write. On any failure the error propagates and the table
is untouched; on success the row is inserted (or replaced, matching on
pk). -/
def Attribute.save (a : Attribute) (attrs : List Attribute) :
    Except PyError (Attribute × List Attribute) :=
  let a1 := if a.slug = "" then { a with slug := generate_slug a.name } else a
  match a1.clean with
  | Except.error e => Except.error e
  | Except.ok () =>
    if attrs.any (fun b => decide (b.slug = a1.slug) && !decide (b.id = a1.id)) then
      Except.error (PyError.validationError "Attribute with this Slug already exists")
    else
      Except.ok (a1, (attrs.filter (fun b => !decide (b.id = a1.id))) ++ [a1])

/-- `Attribute.get_choices`: the member set of `enum_group` for enum
attributes, an explicit `Option.none` otherwise; an enum attribute without
a group hits the `AttributeError` of `None.values.all()`. -/
def Attribute.get_choices (a : Attribute) : Except PyError (Option (List EnumValue)) :=
  if a.datatype = Attribute.TYPE_ENUM then
    match a.enum_group with
    | some g => Except.ok (some g.values)
    | Option.none => Except.error PyError.attributeError
  else Except.ok Option.none

/-- One recorded `save_value` invocation: attribute, entity, raw value and
the clock reading at the call. -/
structure SaveCall where
  attr : Attribute
  entity : Entity
  val : PyValue
  time : Nat

/-- Run one call against the store; a call that raises leaves the store as
it was. -/
def applyCall (c : SaveCall) (s : Store) : Store :=
  (c.attr.save_value c.entity c.val c.time s).getD s

/-- Run a finite sequence of `save_value` calls in order. -/
def runCalls (cs : List SaveCall) (s : Store) : Store :=
  cs.foldl (fun st c => applyCall c st) s

/-- The at-most-one invariant: no identity is carried by two rows. -/
def atMostOne (s : Store) : Prop :=
  ∀ j : Ident, countValues s j ≤ 1

theorem mem_findValues {s : Store} {i : Ident} {r : ValueRow} :
    r ∈ findValues s i ↔ r ∈ s ∧ r.ident = i := by
  simp [findValues, List.mem_filter]

theorem findValues_eq_nil_iff {s : Store} {i : Ident} :
    findValues s i = [] ↔ ∀ r ∈ s, r.ident ≠ i := by
  simp [findValues, List.filter_eq_nil_iff]

theorem findValues_cons (r : ValueRow) (s : Store) (j : Ident) :
    findValues (r :: s) j = if r.ident = j then r :: findValues s j else findValues s j := by
  by_cases h : r.ident = j <;> simp [findValues, List.filter_cons, h]

theorem updateValue_cons (r : ValueRow) (s : Store) (i : Ident) (v : PyValue) (t : Nat) :
    updateValue (r :: s) i v t =
      (if r.ident = i then { r with payload := v, modified := t } else r) ::
        updateValue s i v t := rfl

theorem deleteValue_cons (r : ValueRow) (s : Store) (i : Ident) :
    deleteValue (r :: s) i =
      if r.ident = i then deleteValue s i else r :: deleteValue s i := by
  by_cases h : r.ident = i <;> simp [deleteValue, List.filter_cons, h]

theorem findValues_updateValue (s : Store) (i j : Ident) (v : PyValue) (t : Nat) :
    findValues (updateValue s i v t) j =
      (findValues s j).map
        (fun r => if r.ident = i then { r with payload := v, modified := t } else r) := by
  induction s with
  | nil => rfl
  | cons r rest ih =>
    have hident : (if r.ident = i then { r with payload := v, modified := t } else r).ident
        = r.ident := by
      by_cases h : r.ident = i <;> simp [h]
    rw [updateValue_cons, findValues_cons, hident, findValues_cons]
    by_cases hrj : r.ident = j
    · rw [if_pos hrj, if_pos hrj, List.map_cons, ih]
    · rw [if_neg hrj, if_neg hrj, ih]

theorem findValues_deleteValue_self (s : Store) (i : Ident) :
    findValues (deleteValue s i) i = [] := by
  induction s with
  | nil => rfl
  | cons r rest ih =>
    rw [deleteValue_cons]
    by_cases h : r.ident = i
    · rw [if_pos h]; exact ih
    · rw [if_neg h, findValues_cons, if_neg h]; exact ih

theorem findValues_deleteValue_ne (s : Store) (i j : Ident) (h : j ≠ i) :
    findValues (deleteValue s i) j = findValues s j := by
  induction s with
  | nil => rfl
  | cons r rest ih =>
    rw [deleteValue_cons, findValues_cons]
    by_cases hri : r.ident = i
    · rw [if_pos hri]
      have hrj : ¬ r.ident = j := fun hh => h (by rw [← hh]; exact hri)
      rw [if_neg hrj]; exact ih
    · rw [if_neg hri, findValues_cons]
      by_cases hrj : r.ident = j
      · rw [if_pos hrj, if_pos hrj, ih]
      · rw [if_neg hrj, if_neg hrj]; exact ih

theorem findValues_createValue (s : Store) (i j : Ident) (t : Nat) :
    findValues (createValue s i t) j =
      findValues s j ++ (if i = j then [⟨i, PyValue.none, t⟩] else []) := by
  by_cases hij : i = j <;>
    simp [createValue, findValues, List.filter_append, List.filter_cons, hij]

theorem mem_deleteValue {s : Store} {i : Ident} {r : ValueRow} :
    r ∈ deleteValue s i → r ∈ s := by
  intro h
  exact (List.mem_filter.mp h).1

theorem isEmptyValue_false_iff (v : PyValue) :
    isEmptyValue v = false ↔ v ≠ PyValue.none ∧ v ≠ PyValue.str "" := by
  rw [← Bool.not_eq_true, isEmptyValue_iff]
  tauto

theorem pyEq_none_eq_false {v : PyValue} (h : v ≠ PyValue.none) :
    pyEq v PyValue.none = false := by
  cases hp : pyEq v PyValue.none
  · rfl
  · exact absurd ((pyEq_none_iff v).mp hp) h

theorem map_update_id {l : List ValueRow} {i : Ident} {v : PyValue} {t : Nat}
    (h : ∀ r ∈ l, r.ident ≠ i) :
    l.map (fun r => if r.ident = i then { r with payload := v, modified := t } else r) = l := by
  induction l with
  | nil => rfl
  | cons r rest ih =>
    rw [List.map_cons, if_neg (h r (List.mem_cons_self r rest)),
      ih (fun x hx => h x (List.mem_cons_of_mem r hx))]

theorem findValues_len_le_one {s : Store} {i : Ident} (h : countValues s i ≤ 1) :
    findValues s i = [] ∨ ∃ r, findValues s i = [r] := by
  cases hl : findValues s i with
  | nil => exact Or.inl rfl
  | cons r rest =>
    cases rest with
    | nil => exact Or.inr ⟨r, rfl⟩
    | cons r2 rest2 =>
      rw [countValues, hl] at h
      simp [List.length_cons] at h

theorem save_value_notfound_empty (a : Attribute) (e : Entity) (v : PyValue) (t : Nat)
    (s : Store) (h1 : findValues s (a.ident e) = []) (h2 : isEmptyValue v = true) :
    a.save_value_steps e v t s = some [] ∧ a.save_value e v t s = some s := by
  have hsteps : a.save_value_steps e v t s = some [] := by
    simp only [Attribute.save_value_steps, h1, h2, if_true]
  exact ⟨hsteps, by simp [Attribute.save_value, hsteps]⟩

theorem save_value_notfound_nonempty (a : Attribute) (e : Entity) (v : PyValue) (t : Nat)
    (s : Store) (h1 : findValues s (a.ident e) = []) (h2 : isEmptyValue v = false) :
    a.save_value_steps e v t s =
      some [createValue s (a.ident e) t,
        updateValue (createValue s (a.ident e) t) (a.ident e) v t] ∧
    a.save_value e v t s =
      some (updateValue (createValue s (a.ident e) t) (a.ident e) v t) := by
  have hvn : pyEq v PyValue.none = false :=
    pyEq_none_eq_false ((isEmptyValue_false_iff v).mp h2).1
  have hsteps : a.save_value_steps e v t s =
      some [createValue s (a.ident e) t,
        updateValue (createValue s (a.ident e) t) (a.ident e) v t] := by
    simp [Attribute.save_value_steps, h1, h2, hvn]
  exact ⟨hsteps, by simp [Attribute.save_value, hsteps]⟩

theorem save_value_found_empty (a : Attribute) (e : Entity) (v : PyValue) (t : Nat)
    (s : Store) (r : ValueRow) (h1 : findValues s (a.ident e) = [r])
    (h2 : isEmptyValue v = true) :
    a.save_value_steps e v t s = some [deleteValue s (a.ident e)] ∧
    a.save_value e v t s = some (deleteValue s (a.ident e)) := by
  have hsteps : a.save_value_steps e v t s = some [deleteValue s (a.ident e)] := by
    simp only [Attribute.save_value_steps, h1, h2, if_true]
  exact ⟨hsteps, by simp [Attribute.save_value, hsteps]⟩

theorem save_value_found_same (a : Attribute) (e : Entity) (v : PyValue) (t : Nat)
    (s : Store) (r : ValueRow) (h1 : findValues s (a.ident e) = [r])
    (h2 : isEmptyValue v = false) (h3 : pyEq v r.payload = true) :
    a.save_value_steps e v t s = some [] ∧ a.save_value e v t s = some s := by
  have hsteps : a.save_value_steps e v t s = some [] := by
    simp [Attribute.save_value_steps, h1, h2, h3]
  exact ⟨hsteps, by simp [Attribute.save_value, hsteps]⟩

theorem save_value_found_diff (a : Attribute) (e : Entity) (v : PyValue) (t : Nat)
    (s : Store) (r : ValueRow) (h1 : findValues s (a.ident e) = [r])
    (h2 : isEmptyValue v = false) (h3 : pyEq v r.payload = false) :
    a.save_value_steps e v t s = some [updateValue s (a.ident e) v t] ∧
    a.save_value e v t s = some (updateValue s (a.ident e) v t) := by
  have hsteps : a.save_value_steps e v t s = some [updateValue s (a.ident e) v t] := by
    simp [Attribute.save_value_steps, h1, h2, h3]
  exact ⟨hsteps, by simp [Attribute.save_value, hsteps]⟩

theorem save_value_multiple (a : Attribute) (e : Entity) (v : PyValue) (t : Nat)
    (s : Store) (h : 1 < countValues s (a.ident e)) :
    a.save_value e v t s = Option.none := by
  cases hl : findValues s (a.ident e) with
  | nil =>
    simp [countValues, hl] at h
  | cons r rest =>
    cases rest with
    | nil => simp [countValues, hl] at h
    | cons r2 rest2 =>
      have hsteps : a.save_value_steps e v t s = Option.none := by
        simp [Attribute.save_value_steps, hl]
      simp [Attribute.save_value, hsteps]

theorem findValues_updateValue_self {s : Store} {i : Ident} {r : ValueRow}
    (h : findValues s i = [r]) (v : PyValue) (t : Nat) :
    findValues (updateValue s i v t) i = [{ r with payload := v, modified := t }] := by
  have hr : r.ident = i := (mem_findValues.mp (h ▸ List.mem_cons_self r [])).2
  rw [findValues_updateValue, h, List.map_cons, List.map_nil, if_pos hr]

theorem findValues_updateValue_ne {s : Store} {i j : Ident} (hne : j ≠ i)
    (v : PyValue) (t : Nat) :
    findValues (updateValue s i v t) j = findValues s j := by
  rw [findValues_updateValue]
  exact map_update_id (fun r hr => by rw [(mem_findValues.mp hr).2]; exact hne)

/-- Behaviour of a non-empty write under the at-most-one precondition:
the call succeeds, leaves exactly one row for the written identity whose
payload is Python-equal to the written value, touches no other identity,
and every row of the result either was already present or carries the
written payload. -/
theorem save_value_nonempty_spec (a : Attribute) (e : Entity) (v : PyValue) (t : Nat)
    (s : Store) (h0 : countValues s (a.ident e) ≤ 1) (h2 : isEmptyValue v = false) :
    ∃ s', a.save_value e v t s = some s' ∧
      (∃ r', findValues s' (a.ident e) = [r'] ∧ pyEq v r'.payload = true) ∧
      (∀ j, j ≠ a.ident e → findValues s' j = findValues s j) ∧
      (∀ r', r' ∈ s' → r' ∈ s ∨ r'.payload = v) := by
  rcases findValues_len_le_one h0 with h1 | ⟨r, h1⟩
  · -- not found: create then write the slot
    refine ⟨updateValue (createValue s (a.ident e) t) (a.ident e) v t,
      (save_value_notfound_nonempty a e v t s h1 h2).2, ?_, ?_, ?_⟩
    · refine ⟨⟨a.ident e, v, t⟩, ?_, pyEq_refl v⟩
      rw [findValues_updateValue, findValues_createValue, h1, if_pos rfl,
        List.nil_append, List.map_cons, List.map_nil, if_pos rfl]
    · intro j hj
      rw [findValues_updateValue_ne hj, findValues_createValue,
        if_neg (fun hh => hj hh.symm), List.append_nil]
    · intro r' hr'
      rcases List.mem_map.mp hr' with ⟨r0, hr0, hfr⟩
      rcases List.mem_append.mp hr0 with hr0s | hr0f
      · left
        have : r0.ident ≠ a.ident e :=
          findValues_eq_nil_iff.mp h1 r0 hr0s
        rw [← hfr, if_neg this]
        exact hr0s
      · right
        have : r0 = (⟨a.ident e, PyValue.none, t⟩ : ValueRow) := List.mem_singleton.mp hr0f
        rw [← hfr, this, if_pos rfl]
  · cases h3 : pyEq v r.payload
    · -- found with a different payload: write the slot in place
      refine ⟨updateValue s (a.ident e) v t,
        (save_value_found_diff a e v t s r h1 h2 h3).2, ?_, ?_, ?_⟩
      · exact ⟨{ r with payload := v, modified := t },
          findValues_updateValue_self h1 v t, pyEq_refl v⟩
      · intro j hj
        exact findValues_updateValue_ne hj v t
      · intro r' hr'
        rcases List.mem_map.mp hr' with ⟨r0, hr0, hfr⟩
        by_cases hid : r0.ident = a.ident e
        · right; rw [← hfr, if_pos hid]
        · left; rw [← hfr, if_neg hid]; exact hr0
    · -- found with a Python-equal payload: no write at all
      exact ⟨s, (save_value_found_same a e v t s r h1 h2 h3).2,
        ⟨r, h1, h3⟩, fun j _ => rfl, fun r' hr' => Or.inl hr'⟩

/-- Behaviour of an empty write under the at-most-one precondition:
the call succeeds, leaves zero rows for the identity, touches no other
identity, is the exact no-op when no row was found, deletes the found row
otherwise, and creates nothing. -/
theorem save_value_empty_spec (a : Attribute) (e : Entity) (v : PyValue) (t : Nat)
    (s : Store) (h0 : countValues s (a.ident e) ≤ 1) (h2 : isEmptyValue v = true) :
    ∃ s', a.save_value e v t s = some s' ∧
      findValues s' (a.ident e) = [] ∧
      (∀ j, j ≠ a.ident e → findValues s' j = findValues s j) ∧
      (findValues s (a.ident e) = [] → s' = s) ∧
      (∀ r, findValues s (a.ident e) = [r] → s' = deleteValue s (a.ident e)) ∧
      (∀ r', r' ∈ s' → r' ∈ s) := by
  rcases findValues_len_le_one h0 with h1 | ⟨r, h1⟩
  · refine ⟨s, (save_value_notfound_empty a e v t s h1 h2).2, h1,
      fun j _ => rfl, fun _ => rfl, ?_, fun r' hr' => hr'⟩
    intro r hr
    rw [h1] at hr
    exact absurd hr (by simp)
  · refine ⟨deleteValue s (a.ident e), (save_value_found_empty a e v t s r h1 h2).2,
      findValues_deleteValue_self s (a.ident e), ?_, ?_, ?_, ?_⟩
    · intro j hj
      exact findValues_deleteValue_ne s (a.ident e) j hj
    · intro hnil
      rw [hnil] at h1
      exact absurd h1 (by simp)
    · intro r2 _
      rfl
    · intro r' hr'
      exact mem_deleteValue hr'

theorem applyCall_atMostOne (c : SaveCall) (s : Store) (h : atMostOne s) :
    atMostOne (applyCall c s) := by
  have h0 : countValues s (c.attr.ident c.entity) ≤ 1 := h _
  cases hv : isEmptyValue c.val
  · rcases save_value_nonempty_spec c.attr c.entity c.val c.time s h0 hv with
      ⟨s', hsv, ⟨r', hr1, _⟩, hpres, _⟩
    have happ : applyCall c s = s' := by simp [applyCall, hsv]
    rw [happ]
    intro j
    by_cases hj : j = c.attr.ident c.entity
    · subst hj
      simp [countValues, hr1]
    · have : countValues s' j = countValues s j := by
        simp only [countValues, hpres j hj]
      rw [this]
      exact h j
  · rcases save_value_empty_spec c.attr c.entity c.val c.time s h0 hv with
      ⟨s', hsv, hnil, hpres, _, _, _⟩
    have happ : applyCall c s = s' := by simp [applyCall, hsv]
    rw [happ]
    intro j
    by_cases hj : j = c.attr.ident c.entity
    · subst hj
      simp [countValues, hnil]
    · have : countValues s' j = countValues s j := by
        simp only [countValues, hpres j hj]
      rw [this]
      exact h j

theorem runCalls_atMostOne (cs : List SaveCall) (s : Store) (h : atMostOne s) :
    atMostOne (runCalls cs s) := by
  induction cs generalizing s with
  | nil => exact h
  | cons c rest ih => exact ih (applyCall c s) (applyCall_atMostOne c s h)

/-! Concrete sample data used by the closed witness statements. -/

def enumYes : EnumValue := ⟨"yes"⟩

def enumNo : EnumValue := ⟨"no"⟩

def enumUnknown : EnumValue := ⟨"unknown"⟩

def ynuGroup : EnumGroup := ⟨"Yes / No / Unknown", [enumYes, enumNo, enumUnknown]⟩

def emptyGroup : EnumGroup := ⟨"Empty", []⟩

def attrHeight : Attribute :=
  { id := 1, name := "Height", slug := "height", datatype := "int" }

def attrFever : Attribute :=
  { id := 2, name := "has fever?", slug := "has-fever", datatype := "enum",
    enum_group := some ynuGroup }

def attrEnumNoGroup : Attribute :=
  { id := 3, name := "Bad", slug := "bad", datatype := "enum" }

def attrTextWithGroup : Attribute :=
  { id := 4, name := "Color", slug := "color", datatype := "text",
    enum_group := some ynuGroup }

def attrEyeColor : Attribute :=
  { id := 5, name := "Eye Color", slug := "", datatype := "text" }

def attrEnumEmpty : Attribute :=
  { id := 6, name := "Empty Choice", slug := "empty-choice", datatype := "enum",
    enum_group := some emptyGroup }

def patient1 : Entity := ⟨3, EntityPk.intPk 7⟩

/-- C1: after `A.save_value(E, value)` there is at most one `Value` row for
the composite identity `(A, E)`, whose stored payload is Python-equal to
`value` whenever `value` is non-empty; and the at-most-one property is
preserved by every finite sequence of `save_value` calls. -/
theorem save_value_at_most_one_invariant (a : Attribute) (e : Entity) (v : PyValue)
    (t : Nat) (s : Store) (h : countValues s (a.ident e) ≤ 1) :
    (∃ s', a.save_value e v t s = some s' ∧ countValues s' (a.ident e) ≤ 1 ∧
      (isEmptyValue v = false →
        ∃ r, findValues s' (a.ident e) = [r] ∧ pyEq v r.payload = true)) ∧
    (∀ (cs : List SaveCall) (s0 : Store), atMostOne s0 → atMostOne (runCalls cs s0)) := by
  constructor
  · cases hv : isEmptyValue v
    · rcases save_value_nonempty_spec a e v t s h hv with ⟨s', hsv, ⟨r', hr1, hr2⟩, _, _⟩
      exact ⟨s', hsv, by simp [countValues, hr1], fun _ => ⟨r', hr1, hr2⟩⟩
    · rcases save_value_empty_spec a e v t s h hv with ⟨s', hsv, hnil, _, _, _, _⟩
      refine ⟨s', hsv, by simp [countValues, hnil], ?_⟩
      intro hf
      exact absurd hf (by simp)
  · exact fun cs s0 h0 => runCalls_atMostOne cs s0 h0

theorem save_value_at_most_one_invariant_witness :
    countValues [] (attrHeight.ident patient1) ≤ 1 ∧
    ((∃ s', attrHeight.save_value patient1 (PyValue.int 178) 0 [] = some s' ∧
        countValues s' (attrHeight.ident patient1) ≤ 1 ∧
        (isEmptyValue (PyValue.int 178) = false →
          ∃ r, findValues s' (attrHeight.ident patient1) = [r] ∧
            pyEq (PyValue.int 178) r.payload = true)) ∧
      (∀ (cs : List SaveCall) (s0 : Store), atMostOne s0 → atMostOne (runCalls cs s0))) :=
  ⟨by decide,
    save_value_at_most_one_invariant attrHeight patient1 (PyValue.int 178) 0 [] (by decide)⟩

/-- C2: writing `None` or the empty string leaves zero `Value` rows for the
identity, whatever the prior state: in any store satisfying the composite
uniqueness constraint (which the store enforces and the protocol preserves)
the existing row is deleted when found and nothing is created when none is
found; in a store already violating the constraint the lookup raises
`MultipleObjectsReturned` before any write, so nothing is created there
either. -/
theorem save_value_empty_write (a : Attribute) (e : Entity) (v : PyValue) (t : Nat)
    (s : Store) (hv : v = PyValue.none ∨ v = PyValue.str "") :
    (countValues s (a.ident e) ≤ 1 →
      ∃ s', a.save_value e v t s = some s' ∧
        findValues s' (a.ident e) = [] ∧
        (findValues s (a.ident e) = [] → s' = s) ∧
        (∀ r, findValues s (a.ident e) = [r] → s' = deleteValue s (a.ident e))) ∧
    (1 < countValues s (a.ident e) → a.save_value e v t s = Option.none) := by
  have hv' : isEmptyValue v = true := (isEmptyValue_iff v).mpr hv
  constructor
  · intro h
    rcases save_value_empty_spec a e v t s h hv' with ⟨s', hsv, hnil, _, hno, hdel, _⟩
    exact ⟨s', hsv, hnil, hno, hdel⟩
  · intro h
    exact save_value_multiple a e v t s h

theorem save_value_empty_write_witness :
    (PyValue.none = PyValue.none ∨ PyValue.none = PyValue.str "") ∧
    ((countValues [⟨attrHeight.ident patient1, PyValue.int 5, 0⟩]
        (attrHeight.ident patient1) ≤ 1 →
      ∃ s', attrHeight.save_value patient1 PyValue.none 1
          [⟨attrHeight.ident patient1, PyValue.int 5, 0⟩] = some s' ∧
        findValues s' (attrHeight.ident patient1) = [] ∧
        (findValues [⟨attrHeight.ident patient1, PyValue.int 5, 0⟩]
            (attrHeight.ident patient1) = [] →
          s' = [⟨attrHeight.ident patient1, PyValue.int 5, 0⟩]) ∧
        (∀ r, findValues [⟨attrHeight.ident patient1, PyValue.int 5, 0⟩]
            (attrHeight.ident patient1) = [r] →
          s' = deleteValue [⟨attrHeight.ident patient1, PyValue.int 5, 0⟩]
            (attrHeight.ident patient1))) ∧
      (1 < countValues [⟨attrHeight.ident patient1, PyValue.int 5, 0⟩]
          (attrHeight.ident patient1) →
        attrHeight.save_value patient1 PyValue.none 1
          [⟨attrHeight.ident patient1, PyValue.int 5, 0⟩] = Option.none)) :=
  ⟨Or.inl rfl,
    save_value_empty_write attrHeight patient1 PyValue.none 1
      [⟨attrHeight.ident patient1, PyValue.int 5, 0⟩] (Or.inl rfl)⟩

/-- C3: two consecutive `save_value` calls with the same non-empty value
leave exactly one row whose payload is Python-equal to the value, and
the second call issues no store write at all (its step list is empty, so
the store and every timestamp are unchanged). -/
theorem save_value_idempotent (a : Attribute) (e : Entity) (v : PyValue)
    (t1 t2 : Nat) (s : Store) (hv : isEmptyValue v = false)
    (h : countValues s (a.ident e) ≤ 1) :
    ∃ s', a.save_value e v t1 s = some s' ∧
      (∃ r, findValues s' (a.ident e) = [r] ∧ pyEq v r.payload = true) ∧
      a.save_value_steps e v t2 s' = some [] ∧
      a.save_value e v t2 s' = some s' := by
  rcases save_value_nonempty_spec a e v t1 s h hv with ⟨s', hsv, ⟨r', hr1, hr2⟩, _, _⟩
  have hsec := save_value_found_same a e v t2 s' r' hr1 hv hr2
  exact ⟨s', hsv, ⟨r', hr1, hr2⟩, hsec.1, hsec.2⟩

theorem save_value_idempotent_witness :
    (isEmptyValue (PyValue.int 178) = false ∧
      countValues [] (attrHeight.ident patient1) ≤ 1) ∧
    (∃ s', attrHeight.save_value patient1 (PyValue.int 178) 0 [] = some s' ∧
      (∃ r, findValues s' (attrHeight.ident patient1) = [r] ∧
        pyEq (PyValue.int 178) r.payload = true) ∧
      attrHeight.save_value_steps patient1 (PyValue.int 178) 9 s' = some [] ∧
      attrHeight.save_value patient1 (PyValue.int 178) 9 s' = some s') :=
  ⟨⟨by decide, by decide⟩,
    save_value_idempotent attrHeight patient1 (PyValue.int 178) 0 9 [] (by decide) (by decide)⟩

/-- C10: only `None` and the empty string are the empty sentinel; every
other value — including the falsy `0`, `False`, `0.0` and the empty list —
takes the non-empty path: it creates the row when absent and rewrites it
when the stored payload differs, and the call always ends with exactly one
row whose payload is Python-equal to the value. -/
theorem save_value_only_none_and_empty_string_sentinel (a : Attribute) (e : Entity)
    (v : PyValue) (t : Nat) (s : Store)
    (hv1 : v ≠ PyValue.none) (hv2 : v ≠ PyValue.str "")
    (h : countValues s (a.ident e) ≤ 1) :
    isEmptyValue v = false ∧
    isEmptyValue (PyValue.int 0) = false ∧
    isEmptyValue (PyValue.bool false) = false ∧
    isEmptyValue (PyValue.float 0) = false ∧
    isEmptyValue (PyValue.list []) = false ∧
    (findValues s (a.ident e) = [] →
      a.save_value e v t s =
        some (updateValue (createValue s (a.ident e) t) (a.ident e) v t)) ∧
    (∀ r, findValues s (a.ident e) = [r] → pyEq v r.payload = false →
      a.save_value e v t s = some (updateValue s (a.ident e) v t)) ∧
    (∃ s' r', a.save_value e v t s = some s' ∧
      findValues s' (a.ident e) = [r'] ∧ pyEq v r'.payload = true) := by
  have hv : isEmptyValue v = false := (isEmptyValue_false_iff v).mpr ⟨hv1, hv2⟩
  refine ⟨hv, by decide, by decide, ?_, by decide, ?_, ?_, ?_⟩
  · simp [isEmptyValue, pyEq, PyValue.asNum?]
  · intro h1
    exact (save_value_notfound_nonempty a e v t s h1 hv).2
  · intro r h1 h3
    exact (save_value_found_diff a e v t s r h1 hv h3).2
  · rcases save_value_nonempty_spec a e v t s h hv with ⟨s', hsv, ⟨r', hr1, hr2⟩, _, _⟩
    exact ⟨s', r', hsv, hr1, hr2⟩

theorem save_value_only_none_and_empty_string_sentinel_witness :
    (PyValue.int 0 ≠ PyValue.none ∧ PyValue.int 0 ≠ PyValue.str "" ∧
      countValues [] (attrHeight.ident patient1) ≤ 1) ∧
    (isEmptyValue (PyValue.int 0) = false ∧
      isEmptyValue (PyValue.int 0) = false ∧
      isEmptyValue (PyValue.bool false) = false ∧
      isEmptyValue (PyValue.float 0) = false ∧
      isEmptyValue (PyValue.list []) = false ∧
      (findValues [] (attrHeight.ident patient1) = [] →
        attrHeight.save_value patient1 (PyValue.int 0) 0 [] =
          some (updateValue (createValue [] (attrHeight.ident patient1) 0)
            (attrHeight.ident patient1) (PyValue.int 0) 0)) ∧
      (∀ r, findValues [] (attrHeight.ident patient1) = [r] →
        pyEq (PyValue.int 0) r.payload = false →
        attrHeight.save_value patient1 (PyValue.int 0) 0 [] =
          some (updateValue [] (attrHeight.ident patient1) (PyValue.int 0) 0)) ∧
      (∃ s' r', attrHeight.save_value patient1 (PyValue.int 0) 0 [] = some s' ∧
        findValues s' (attrHeight.ident patient1) = [r'] ∧
        pyEq (PyValue.int 0) r'.payload = true)) :=
  ⟨⟨by decide, by decide, by decide⟩,
    save_value_only_none_and_empty_string_sentinel attrHeight patient1 (PyValue.int 0) 0 []
      (by decide) (by decide) (by decide)⟩

/-- C6 counterexample: on the first non-empty write the source runs
`Value.objects.create(**entity_filter)` before assigning the payload slot,
so the call persists an intermediate state in which the freshly created row
still has an all-null payload — refuting the claim that at no point during
a `save_value` call is a row with an empty payload persisted. The first
element of the step list is exactly that state. -/
theorem save_value_transient_empty_row :
    attrHeight.save_value_steps patient1 (PyValue.int 178) 5 [] =
      some [[⟨attrHeight.ident patient1, PyValue.none, 5⟩],
        [⟨attrHeight.ident patient1, PyValue.int 178, 5⟩]] ∧
    (∃ st ∈ (attrHeight.save_value_steps patient1 (PyValue.int 178) 5 []).getD [],
      ∃ r ∈ st, isEmptyValue r.payload = true) := by
  constructor
  · decide
  · decide

/-- C6 (amended): a `Value` row is created lazily on the first non-empty
write, and after a `save_value` call completes no persisted row has an
empty payload; during the non-empty-create path, however, the fresh row is
transiently persisted with an empty payload before its slot is written. -/
theorem save_value_no_empty_payload_after (a : Attribute) (e : Entity) (v : PyValue)
    (t : Nat) (s : Store) (h : countValues s (a.ident e) ≤ 1)
    (hclean : ∀ r ∈ s, isEmptyValue r.payload = false) :
    ∃ s', a.save_value e v t s = some s' ∧
      (∀ r ∈ s', isEmptyValue r.payload = false) ∧
      (isEmptyValue v = true → findValues s (a.ident e) = [] → s' = s) ∧
      (isEmptyValue v = false → findValues s (a.ident e) = [] →
        findValues s' (a.ident e) = [⟨a.ident e, v, t⟩]) := by
  cases hv : isEmptyValue v
  · rcases save_value_nonempty_spec a e v t s h hv with ⟨s', hsv, _, _, hmem⟩
    refine ⟨s', hsv, ?_, ?_, ?_⟩
    · intro r hr
      rcases hmem r hr with hrs | hrv
      · exact hclean r hrs
      · rw [hrv]
        exact hv
    · intro hf
      exact absurd hf (by simp)
    · intro _ h1
      have heq := (save_value_notfound_nonempty a e v t s h1 hv).2
      rw [hsv] at heq
      have hs' : s' = updateValue (createValue s (a.ident e) t) (a.ident e) v t :=
        Option.some.inj heq
      rw [hs', findValues_updateValue, findValues_createValue, h1, if_pos rfl,
        List.nil_append, List.map_cons, List.map_nil, if_pos rfl]
  · rcases save_value_empty_spec a e v t s h hv with ⟨s', hsv, _, _, hno, _, hmem⟩
    refine ⟨s', hsv, fun r hr => hclean r (hmem r hr), fun _ => hno, ?_⟩
    intro hf
    exact absurd hf (by simp)

theorem save_value_no_empty_payload_after_witness :
    (countValues [] (attrHeight.ident patient1) ≤ 1 ∧
      (∀ r ∈ ([] : Store), isEmptyValue r.payload = false)) ∧
    (∃ s', attrHeight.save_value patient1 (PyValue.int 178) 5 [] = some s' ∧
      (∀ r ∈ s', isEmptyValue r.payload = false) ∧
      (isEmptyValue (PyValue.int 178) = true →
        findValues [] (attrHeight.ident patient1) = [] → s' = []) ∧
      (isEmptyValue (PyValue.int 178) = false →
        findValues [] (attrHeight.ident patient1) = [] →
        findValues s' (attrHeight.ident patient1) =
          [⟨attrHeight.ident patient1, PyValue.int 178, 5⟩])) :=
  ⟨⟨by decide, by decide⟩,
    save_value_no_empty_payload_after attrHeight patient1 (PyValue.int 178) 5 []
      (by decide) (by decide)⟩

/-- The closed datatype enumeration. -/
def datatypeTags : List String :=
  ["text", "float", "int", "date", "bool", "object", "enum", "json", "csv"]

/-- C7: the validator dispatch is total over the closed datatype set — for
every tag in the enumeration, `get_validators` succeeds and returns exactly
one validator (a one-element list), so the lookup cannot fail for any
attribute whose datatype belongs to the set. -/
theorem get_validators_total (a : Attribute) (h : a.datatype ∈ datatypeTags) :
    ∃ f, a.get_validators = some [f] := by
  simp only [datatypeTags, List.mem_cons, List.not_mem_nil, or_false] at h
  rcases h with h | h | h | h | h | h | h | h | h <;>
    exact ⟨_, by unfold Attribute.get_validators; rw [h]; rfl⟩

theorem get_validators_total_witness :
    attrHeight.datatype ∈ datatypeTags ∧ ∃ f, attrHeight.get_validators = some [f] :=
  ⟨by decide, get_validators_total attrHeight (by decide)⟩

/-- C9: `get_choices` returns the member set of `enum_group` for an
enum-typed attribute (possibly the empty set) and the explicit absence
marker `Option.none` — never an empty set — for any other datatype, so the
two cases are distinguishable. -/
theorem get_choices_spec (a : Attribute) :
    (∀ g, a.datatype = Attribute.TYPE_ENUM → a.enum_group = some g →
      a.get_choices = Except.ok (some g.values)) ∧
    (a.datatype ≠ Attribute.TYPE_ENUM → a.get_choices = Except.ok Option.none) ∧
    (∀ xs : List EnumValue, (some xs : Option (List EnumValue)) ≠ Option.none) := by
  refine ⟨?_, ?_, fun xs => by simp⟩
  · intro g hd hg
    simp [Attribute.get_choices, hd, hg]
  · intro hd
    simp [Attribute.get_choices, hd]

theorem get_choices_spec_witness :
    (attrEnumEmpty.datatype = Attribute.TYPE_ENUM ∧
      attrEnumEmpty.enum_group = some emptyGroup ∧
      attrHeight.datatype ≠ Attribute.TYPE_ENUM) ∧
    (attrEnumEmpty.get_choices = Except.ok (some ([] : List EnumValue)) ∧
      attrHeight.get_choices = Except.ok Option.none ∧
      (some ([] : List EnumValue) : Option (List EnumValue)) ≠ Option.none) :=
  ⟨⟨rfl, rfl, by decide⟩,
    ⟨(get_choices_spec attrEnumEmpty).1 emptyGroup rfl rfl,
      (get_choices_spec attrHeight).2.1 (by decide),
      (get_choices_spec attrHeight).2.2 []⟩⟩

/-- C5: `clean` enforces invariant I1 with two distinct messages — one for
an enum datatype without a choice group, another for a non-enum datatype
with a group — and since `save` runs the check before the write, a
violating `save` fails with that same error (the model returns the store
only on success, so a rejected save changes no state); the two legal
combinations pass the check. -/
theorem clean_enforces_I1 (a : Attribute) (attrs : List Attribute) :
    (a.datatype = Attribute.TYPE_ENUM → a.enum_group = Option.none →
      a.clean = Except.error (PyError.validationError
        "You must set the choice group for multiple choice attributes") ∧
      a.save attrs = Except.error (PyError.validationError
        "You must set the choice group for multiple choice attributes")) ∧
    (a.datatype ≠ Attribute.TYPE_ENUM → ∀ g, a.enum_group = some g →
      a.clean = Except.error (PyError.validationError
        "You can only assign a choice group to multiple choice attributes") ∧
      a.save attrs = Except.error (PyError.validationError
        "You can only assign a choice group to multiple choice attributes")) ∧
    ("You must set the choice group for multiple choice attributes" ≠
      "You can only assign a choice group to multiple choice attributes") ∧
    (a.datatype = Attribute.TYPE_ENUM → ∀ g, a.enum_group = some g →
      a.clean = Except.ok ()) ∧
    (a.datatype ≠ Attribute.TYPE_ENUM → a.enum_group = Option.none →
      a.clean = Except.ok ()) := by
  have hslug : ∀ b : Attribute, b.clean =
      (if b.slug = "" then { b with slug := generate_slug b.name } else b).clean := by
    intro b
    by_cases hb : b.slug = "" <;> simp [hb, Attribute.clean]
  refine ⟨?_, ?_, by decide, ?_, ?_⟩
  · intro hd hg
    have hc : a.clean = Except.error (PyError.validationError
        "You must set the choice group for multiple choice attributes") := by
      simp [Attribute.clean, hd, hg]
    refine ⟨hc, ?_⟩
    rw [Attribute.save, ← hslug a, hc]
  · intro hd g hg
    have hc : a.clean = Except.error (PyError.validationError
        "You can only assign a choice group to multiple choice attributes") := by
      simp [Attribute.clean, hd, hg]
    refine ⟨hc, ?_⟩
    rw [Attribute.save, ← hslug a, hc]
  · intro hd g hg
    simp [Attribute.clean, hd, hg]
  · intro hd hg
    simp [Attribute.clean, hd, hg]

theorem clean_enforces_I1_witness :
    (attrEnumNoGroup.datatype = Attribute.TYPE_ENUM ∧
      attrEnumNoGroup.enum_group = Option.none ∧
      attrTextWithGroup.datatype ≠ Attribute.TYPE_ENUM ∧
      attrTextWithGroup.enum_group = some ynuGroup ∧
      attrFever.datatype = Attribute.TYPE_ENUM ∧
      attrFever.enum_group = some ynuGroup ∧
      attrHeight.datatype ≠ Attribute.TYPE_ENUM ∧
      attrHeight.enum_group = Option.none) ∧
    (attrEnumNoGroup.clean = Except.error (PyError.validationError
        "You must set the choice group for multiple choice attributes") ∧
      attrEnumNoGroup.save [] = Except.error (PyError.validationError
        "You must set the choice group for multiple choice attributes") ∧
      attrTextWithGroup.clean = Except.error (PyError.validationError
        "You can only assign a choice group to multiple choice attributes") ∧
      attrFever.clean = Except.ok () ∧
      attrHeight.clean = Except.ok ()) :=
  ⟨⟨rfl, rfl, by decide, rfl, rfl, rfl, by decide, rfl⟩,
    ⟨((clean_enforces_I1 attrEnumNoGroup []).1 rfl rfl).1,
      ((clean_enforces_I1 attrEnumNoGroup []).1 rfl rfl).2,
      ((clean_enforces_I1 attrTextWithGroup []).2.1 (by decide) ynuGroup rfl).1,
      (clean_enforces_I1 attrFever []).2.2.2.1 rfl ynuGroup rfl,
      (clean_enforces_I1 attrHeight []).2.2.2.2 (by decide) rfl⟩⟩

/-- C8: on `save` with a blank slug, the slug is deterministically derived
from the name before the invariant check and the write (a successful save
returns the derived slug, and the derivation is a fixed function of the
name, non-empty for a name such as Eye Color); a collision of the derived
slug with an existing attribute is surfaced as a fatal error — the save
fails rather than suffixing a fresh slug. -/
theorem save_autoslug (a : Attribute) (attrs : List Attribute)
    (hs : a.slug = "") (hd : a.datatype ≠ Attribute.TYPE_ENUM)
    (hg : a.enum_group = Option.none) :
    (∀ r rest, a.save attrs = Except.ok (r, rest) → r.slug = generate_slug a.name) ∧
    (generate_slug "Eye Color" = "eye-color" ∧ generate_slug "Eye Color" ≠ "") ∧
    ((∃ b ∈ attrs, b.slug = generate_slug a.name ∧ b.id ≠ a.id) →
      a.save attrs = Except.error
        (PyError.validationError "Attribute with this Slug already exists")) ∧
    ((∀ b ∈ attrs, b.slug = generate_slug a.name → b.id = a.id) →
      ∃ rest, a.save attrs =
        Except.ok ({ a with slug := generate_slug a.name }, rest)) := by
  have ha1 : (if a.slug = "" then { a with slug := generate_slug a.name } else a) =
      { a with slug := generate_slug a.name } := by rw [if_pos hs]
  have hclean : ({ a with slug := generate_slug a.name } : Attribute).clean =
      Except.ok () := by
    simp [Attribute.clean, hd, hg]
  constructor
  · intro r rest hok
    rw [Attribute.save, ha1, hclean] at hok
    by_cases hcol : attrs.any (fun b =>
        decide (b.slug = ({ a with slug := generate_slug a.name } : Attribute).slug) &&
          !decide (b.id = ({ a with slug := generate_slug a.name } : Attribute).id))
    · rw [if_pos hcol] at hok
      exact absurd hok (by simp)
    · rw [if_neg hcol] at hok
      have := (Prod.mk.injEq _ _ _ _).mp (Except.ok.inj hok)
      rw [← this.1]
  refine ⟨⟨by decide, by decide⟩, ?_, ?_⟩
  · intro hcol
    have hany : attrs.any (fun b =>
        decide (b.slug = ({ a with slug := generate_slug a.name } : Attribute).slug) &&
          !decide (b.id = ({ a with slug := generate_slug a.name } : Attribute).id)) = true := by
      rcases hcol with ⟨b, hb, hbs, hbi⟩
      refine List.any_eq_true.mpr ⟨b, hb, ?_⟩
      simp [hbs, hbi]
    rw [Attribute.save, ha1, hclean, if_pos hany]
  · intro hcol
    have hany : attrs.any (fun b =>
        decide (b.slug = ({ a with slug := generate_slug a.name } : Attribute).slug) &&
          !decide (b.id = ({ a with slug := generate_slug a.name } : Attribute).id)) = false := by
      rw [List.any_eq_false]
      intro b hb
      simp only [Bool.and_eq_true, decide_eq_true_eq, Bool.not_eq_true',
        decide_eq_false_iff_not, not_and]
      intro hbs
      simp only [not_not]
      exact hcol b hb hbs
    refine ⟨attrs.filter (fun b => !decide (b.id = a.id)) ++
      [{ a with slug := generate_slug a.name }], ?_⟩
    rw [Attribute.save, ha1, hclean, if_neg (by rw [hany]; simp)]

theorem save_autoslug_witness :
    (attrEyeColor.slug = "" ∧ attrEyeColor.datatype ≠ Attribute.TYPE_ENUM ∧
      attrEyeColor.enum_group = Option.none ∧
      (∃ b ∈ [{ attrEyeColor with id := 99, slug := "eye-color" }],
        b.slug = generate_slug attrEyeColor.name ∧ b.id ≠ attrEyeColor.id)) ∧
    (generate_slug "Eye Color" = "eye-color" ∧
      attrEyeColor.save [{ attrEyeColor with id := 99, slug := "eye-color" }] =
        Except.error
          (PyError.validationError "Attribute with this Slug already exists")) :=
  ⟨⟨rfl, by decide, rfl, by decide⟩,
    ⟨((save_autoslug attrEyeColor [{ attrEyeColor with id := 99, slug := "eye-color" }]
        rfl (by decide) rfl).2.1).1,
      (save_autoslug attrEyeColor [{ attrEyeColor with id := 99, slug := "eye-color" }]
        rfl (by decide) rfl).2.2.1 (by decide)⟩⟩

theorem enumMember_false_of_validate_enum_error {x : PyValue} {e : PyError}
    (hx : validate_enum x = Except.error e) (g : EnumGroup) :
    enumMember g (enumLabel x) = false := by
  cases x <;> simp [validate_enum, enumMember, enumLabel] at hx ⊢

theorem validate_value_enum_run (a : Attribute) (g : EnumGroup) (x : PyValue)
    (hd : a.datatype = Attribute.TYPE_ENUM) (hg : a.enum_group = some g) :
    a.validate_value x =
      (match validate_enum x with
      | Except.error e => Except.error e
      | Except.ok () =>
        if enumMember g (enumLabel x) then Except.ok ()
        else Except.error (PyError.validationError
          (pyStr (enumLabel x) ++ " is not a valid choice for " ++ a.strRepr))) := by
  have hv : a.get_validators = some [validate_enum] := by
    unfold Attribute.get_validators
    rw [hd]
    rfl
  cases hx : validate_enum x with
  | error e => simp [Attribute.validate_value, hv, runValidatorList, hx]
  | ok u =>
    cases u
    simp [Attribute.validate_value, hv, runValidatorList, hx, hd, hg]

/-- Does the first character list occur at the head of the second? -/
def listStarts : List Char → List Char → Bool
  | [], _ => true
  | _ :: _, [] => false
  | a :: as, b :: bs => decide (a = b) && listStarts as bs

/-- Does the first character list occur contiguously anywhere inside the
second? -/
def listHasSub (p : List Char) : List Char → Bool
  | [] => listStarts p []
  | c :: cs => listStarts p (c :: cs) || listHasSub p cs

/-- C4 counterexample: the claim requires every non-member input to raise a
`ValidationError` whose message names the offending value and the
attribute; the non-member ill-shaped input `5` is instead rejected by the
enum validator with its fixed generic message, which differs from the
naming message of the membership branch and mentions neither the value nor
the attribute name. -/
theorem validate_value_generic_message_counterexample :
    enumMember ynuGroup (enumLabel (PyValue.int 5)) = false ∧
    attrFever.validate_value (PyValue.int 5) =
      Except.error (PyError.validationError "Must be an EnumValue or a text choice") ∧
    "Must be an EnumValue or a text choice" ≠
      pyStr (enumLabel (PyValue.int 5)) ++ " is not a valid choice for " ++
        attrFever.strRepr ∧
    listHasSub (pyStr (PyValue.int 5)).data
      "Must be an EnumValue or a text choice".data = false ∧
    listHasSub attrFever.name.data
      "Must be an EnumValue or a text choice".data = false := by
  refine ⟨by decide, ?_, by decide, by decide, by decide⟩
  rfl

/-- C4 (amended): for an enum-typed attribute, `validate_value x` succeeds
exactly when `x` — or its label when `x` is an `EnumValue` reference — is a
member of the attribute choice group; a choice-shaped non-member (a string
or an `EnumValue` reference) raises a `ValidationError` whose message
names the offending value and the attribute, while an ill-shaped input is
rejected by the enum validator with its fixed generic message. -/
theorem validate_value_enum_membership (a : Attribute) (g : EnumGroup) (x : PyValue)
    (hd : a.datatype = Attribute.TYPE_ENUM) (hg : a.enum_group = some g) :
    (a.validate_value x = Except.ok () ↔ enumMember g (enumLabel x) = true) ∧
    ((∃ s, x = PyValue.str s) ∨ (∃ l, x = PyValue.enumRef l) →
      enumMember g (enumLabel x) = false →
      a.validate_value x = Except.error (PyError.validationError
        (pyStr (enumLabel x) ++ " is not a valid choice for " ++ a.strRepr))) ∧
    ((∀ s, x ≠ PyValue.str s) → (∀ l, x ≠ PyValue.enumRef l) →
      a.validate_value x = Except.error
        (PyError.validationError "Must be an EnumValue or a text choice")) := by
  have hrun := validate_value_enum_run a g x hd hg
  refine ⟨?_, ?_, ?_⟩
  · cases hx : validate_enum x with
    | error e =>
      simp only [hx] at hrun
      rw [hrun, enumMember_false_of_validate_enum_error hx g]
      simp
    | ok u =>
      cases u
      simp only [hx] at hrun
      by_cases hm : enumMember g (enumLabel x) = true
      · rw [hrun, if_pos hm, hm]
        simp
      · rw [hrun, if_neg hm]
        simp [hm]
  · intro hshape hm
    have hok : validate_enum x = Except.ok () := by
      rcases hshape with ⟨s, rfl⟩ | ⟨l, rfl⟩ <;> rfl
    simp only [hok] at hrun
    rw [hrun, if_neg (by rw [hm]; simp)]
  · intro hs hl
    have hx : validate_enum x =
        Except.error (PyError.validationError "Must be an EnumValue or a text choice") := by
      cases x <;> first
        | rfl
        | exact absurd rfl (hs _)
        | exact absurd rfl (hl _)
    simp only [hx] at hrun
    exact hrun

theorem validate_value_enum_membership_witness :
    (attrFever.datatype = Attribute.TYPE_ENUM ∧
      attrFever.enum_group = some ynuGroup) ∧
    ((attrFever.validate_value (PyValue.str "maybe") = Except.ok () ↔
        enumMember ynuGroup (enumLabel (PyValue.str "maybe")) = true) ∧
      ((∃ s, PyValue.str "maybe" = PyValue.str s) ∨
          (∃ l, PyValue.str "maybe" = PyValue.enumRef l) →
        enumMember ynuGroup (enumLabel (PyValue.str "maybe")) = false →
        attrFever.validate_value (PyValue.str "maybe") = Except.error
          (PyError.validationError (pyStr (enumLabel (PyValue.str "maybe")) ++
            " is not a valid choice for " ++ attrFever.strRepr))) ∧
      ((∀ s, PyValue.str "maybe" ≠ PyValue.str s) →
        (∀ l, PyValue.str "maybe" ≠ PyValue.enumRef l) →
        attrFever.validate_value (PyValue.str "maybe") = Except.error
          (PyError.validationError "Must be an EnumValue or a text choice"))) :=
  ⟨⟨rfl, rfl⟩,
    validate_value_enum_membership attrFever ynuGroup (PyValue.str "maybe") rfl rfl⟩
